import Mathlib

/-!
Verification of the Patient-Referral-System backend's approval and referral
policy core against its natural-language specification.

The definitions below are a shallow embedding of the JavaScript source:

* data model: `src/models/User.js`, `src/models/Hospital.js`, the Referral
  mongoose schema (referral model file), with document ids as `Nat`,
  timestamps as `Nat` milliseconds, and the document store as in-memory lists;
* operations: the referral controller (`getReferrals`, `createReferral`,
  `updateReferral`, `updateReferralStatus`), the doctor controller
  (`getDoctors`, `getDoctorById`, `getDoctorReferrals`) and the approval
  controller (`approveHospital`, `rejectUser`, `rejectHospital`), each
  translated statement by statement;
* mongoose behaviour that the controllers rely on: `save()` runs the schema
  enum validators (a failed validation throws, surfaced as the handler's
  catch-all 500 response, with nothing persisted), and strict mode drops
  object keys that are not schema paths when casting pushed subdocuments;
* each HTTP request is modelled with a single `now : Nat`; every
  `new Date()` evaluated while handling that request yields `now`.

Fields of the schemas that no embedded operation reads or writes
(attachments, messages, appointment, follow-up, expiry, password material,
profile data not used in filters) are omitted; every field an embedded
operation touches is present.
-/

namespace PRS

/-- Account roles, `userSchema.role` enum (User.js:29-33). -/
inductive Role
  | super_admin
  | hospital
  | doctor
  | patient
deriving DecidableEq, Repr

/-- Account approval states, `userSchema.approvalStatus` enum (User.js:70-74). -/
inductive ApprovalStatus
  | pending
  | approved
  | rejected
deriving DecidableEq, Repr

/-- Hospital states, `hospitalSchema.status` enum (Hospital.js:110-113). -/
inductive HospitalStatus
  | pending
  | approved
  | rejected
  | suspended
deriving DecidableEq, Repr

/-- An Account document (User.js).  Profile strings that appear in the
doctor-listing search are carried so that `getDoctors` can be translated in
full; `createdAt` comes from mongoose `timestamps: true`. -/
structure User where
  _id : Nat
  email : String := ""
  role : Role
  approvalStatus : ApprovalStatus := ApprovalStatus.pending
  isActive : Bool := true
  hospitalId : Option Nat := none
  clinicId : Option Nat := none
  createdAt : Nat := 0
  approvedBy : Option Nat := none
  approvedAt : Option Nat := none
  rejectionReason : Option String := none
  firstName : String := ""
  lastName : String := ""
  phone : String := ""
  specialization : String := ""
  licenseNumber : String := ""
deriving DecidableEq, Repr

/-- A Hospital document (Hospital.js). -/
structure Hospital where
  _id : Nat
  email : String := ""
  name : String := ""
  status : HospitalStatus := HospitalStatus.pending
  approvedBy : Option Nat := none
  approvedAt : Option Nat := none
  rejectionReason : Option String := none
deriving DecidableEq, Repr

/-- A stored timeline entry.  The timeline subdocument schema of the Referral
model declares exactly the paths `action`, `timestamp`, `performedBy`,
`notes` (Referral schema lines 156-170); only these survive a push. -/
structure TimelineEntry where
  action : Option String := none
  timestamp : Nat := 0
  performedBy : Option Nat := none
  notes : Option String := none
deriving DecidableEq, Repr

/-- The `diagnosis` subdocument of the Referral schema ({primary, secondary}). -/
structure Diagnosis where
  primary : String := ""
  secondary : List String := []
deriving DecidableEq, Repr

/-- The `vitalSigns` subdocument of the Referral schema. -/
structure VitalSigns where
  bloodPressure : Option String := none
  heartRate : Option Nat := none
  temperature : Option Nat := none
  respiratoryRate : Option Nat := none
  oxygenSaturation : Option Nat := none
  weight : Option Nat := none
  height : Option Nat := none
deriving DecidableEq, Repr

/-- A Referral document, following the mongoose Referral schema.  Note that
the schema has no top-level `notes` or `treatmentPlan` path (its narrative
fields are `reason`, `chiefComplaint`, `historyOfPresentIllness`,
`physicalExamination`, `treatmentGiven`), so controller writes to
`referral.notes` / `referral.treatmentPlan` target non-schema paths and are
not persisted; accordingly the structure carries only schema paths. -/
structure Referral where
  _id : Nat
  referralId : String := ""
  patient : Nat
  referringDoctor : Nat
  referringHospital : Nat
  receivingDoctor : Option Nat := none
  receivingHospital : Nat
  reason : String := ""
  priority : String := "medium"
  specialty : String := ""
  chiefComplaint : String := ""
  historyOfPresentIllness : String := ""
  physicalExamination : String := ""
  vitalSigns : VitalSigns := {}
  diagnosis : Diagnosis := {}
  status : String := "pending"
  timeline : List TimelineEntry := []
  createdAt : Nat := 0
deriving DecidableEq, Repr

/-- The document store: three collections addressed by `_id`. -/
structure DB where
  users : List User := []
  hospitals : List Hospital := []
  referrals : List Referral := []
deriving DecidableEq, Repr

/-- Model of `User.findById`. -/
def findUserById (db : DB) (id : Nat) : Option User :=
  db.users.find? (fun u => decide (u._id = id))

/-- Model of `Hospital.findById`. -/
def findHospitalById (db : DB) (id : Nat) : Option Hospital :=
  db.hospitals.find? (fun h => decide (h._id = id))

/-- Model of `Referral.findById`. -/
def findReferralById (db : DB) (id : Nat) : Option Referral :=
  db.referrals.find? (fun r => decide (r._id = id))

/-- Persisting a fetched-and-mutated user document: `save()` writes the
document back under its `_id`. -/
def saveUser (db : DB) (u : User) : DB :=
  { db with users := db.users.map (fun v => if v._id = u._id then u else v) }

/-- Persisting a fetched-and-mutated hospital document. -/
def saveHospital (db : DB) (h : Hospital) : DB :=
  { db with hospitals := db.hospitals.map (fun v => if v._id = h._id then h else v) }

/-- Persisting a fetched-and-mutated referral document. -/
def saveReferral (db : DB) (r : Referral) : DB :=
  { db with referrals := db.referrals.map (fun v => if v._id = r._id then r else v) }

/-- The `status` enum of the Referral schema (lines 104-108): note it does
NOT contain `in_progress`. -/
def referralStatusEnum : List String :=
  ["pending", "accepted", "rejected", "completed", "cancelled"]

/-- The `priority` enum of the Referral schema. -/
def referralPriorityEnum : List String :=
  ["low", "medium", "high", "urgent"]

/-- The timeline `action` enum of the Referral schema (lines 157-160). -/
def timelineActionEnum : List String :=
  ["created", "sent", "received", "accepted", "rejected", "completed", "cancelled"]

/-- Schema validation run by `referral.save()`: enum paths must hold enum
values (an unset `action` passes, the path is not required).  A failing
validation throws a ValidationError, which each handler's catch block turns
into a 500 response with nothing persisted. -/
def referralValid (r : Referral) : Bool :=
  decide (r.status ∈ referralStatusEnum)
    && decide (r.priority ∈ referralPriorityEnum)
    && r.timeline.all (fun e =>
        match e.action with
        | none => true
        | some act => decide (act ∈ timelineActionEnum))

/-- Result of a request handler: the JSON success payload or an
`res.status(code).json({message})` error response. -/
inductive ApiResult (α : Type)
  | ok (data : α)
  | err (code : Nat) (message : String)
deriving DecidableEq, Repr

/-- JavaScript string truthiness for an optional request field: `undefined`
and the empty string are falsy. -/
def presentStr (s? : Option String) : Option String :=
  match s? with
  | none => none
  | some s => if s = "" then none else some s

/-- JavaScript `a || dflt` for an optional string field. -/
def jsOrStr (s? : Option String) (dflt : String) : String :=
  match presentStr s? with
  | none => dflt
  | some s => s

/-- ASCII lower-casing of one character. -/
def lowerChar (c : Char) : Char :=
  if 65 ≤ c.toNat ∧ c.toNat ≤ 90 then Char.ofNat (c.toNat + 32) else c

/-- Substring test on character lists. -/
def listInfix (needle : List Char) : List Char → Bool
  | [] => needle.isEmpty
  | c :: t => needle.isPrefixOf (c :: t) || listInfix needle t

/-- Case-insensitive containment on strings, the semantics of a mongo
`$regex` filter whose pattern is the caller's plain search text with
`$options: 'i'`. -/
def iContains (hay pat : String) : Bool :=
  listInfix (pat.toList.map lowerChar) (hay.toList.map lowerChar)

/-- Stable insertion into a sorted list. -/
def insertSorted {α : Type} (le : α → α → Bool) (x : α) : List α → List α
  | [] => [x]
  | y :: ys => if le x y then x :: y :: ys else y :: insertSorted le x ys

/-- Stable insertion sort, the model of a mongo `sort()` on a query. -/
def sortWith {α : Type} (le : α → α → Bool) : List α → List α
  | [] => []
  | x :: xs => insertSorted le x (sortWith le xs)

/-- The raw object the controller pushes onto `referral.timeline` in
`updateReferralStatus`: keys `status`, `updatedBy`, `notes`, `timestamp`. -/
structure RawStatusTimelineEntry where
  status : String
  updatedBy : Nat
  notes : String
  timestamp : Nat
deriving DecidableEq, Repr

/-- Mongoose casting of the pushed object to the timeline subdocument schema
(paths `action`, `timestamp`, `performedBy`, `notes`): strict mode drops the
unknown keys `status` and `updatedBy`; the schema paths `action` and
`performedBy`, absent from the pushed object, remain unset. -/
def castTimelineEntry (e : RawStatusTimelineEntry) : TimelineEntry :=
  { action := none
    timestamp := e.timestamp
    performedBy := none
    notes := some e.notes }

/-- The controller's list of accepted statuses in `updateReferralStatus`:
it contains `in_progress`, which the schema `status` enum does not. -/
def validStatuses : List String :=
  ["pending", "accepted", "in_progress", "completed", "cancelled", "rejected"]

/-- Tail of `updateReferralStatus` after the permission check: set the new
status (the write to `referral.notes` targets a path the schema does not
declare and is not persisted), push the timeline entry, and `save()`.  A
schema validation failure at save is the handler's catch-all 500 response,
with nothing persisted. -/
def updateReferralStatusWrite (db : DB) (user : User) (referral : Referral)
    (status : String) (notes? : Option String) (now : Nat) :
    DB × ApiResult Referral :=
  let raw : RawStatusTimelineEntry :=
    { status := status
      updatedBy := user._id
      notes := jsOrStr notes? s!"Status changed to {status}"
      timestamp := now }
  let referral2 := { referral with
    status := status
    timeline := referral.timeline ++ [castTimelineEntry raw] }
  if referralValid referral2 then
    (saveReferral db referral2, ApiResult.ok referral2)
  else
    (db, ApiResult.err 500 "Error updating referral status")

/-- Model of `updateReferralStatus` (PATCH /api/referrals/:id/status).  The
referral router applies only the `protect` middleware to this route, so any
active authenticated user reaches the handler; the handler itself checks
authority only in the `role === 'hospital'` branch. -/
def updateReferralStatus (db : DB) (user : User) (id : Nat)
    (status? notes? : Option String) (now : Nat) : DB × ApiResult Referral :=
  match presentStr status? with
  | none => (db, ApiResult.err 400 "Status is required")
  | some status =>
    if validStatuses.contains status = false then
      (db, ApiResult.err 400 "Invalid status")
    else
      match findReferralById db id with
      | none => (db, ApiResult.err 404 "Referral not found")
      | some referral =>
        if user.role = Role.hospital ∧ user.hospitalId.isSome then
          if user.hospitalId ≠ some referral.receivingHospital then
            (db, ApiResult.err 403 "Only receiving hospital can update status")
          else
            updateReferralStatusWrite db user referral status notes? now
        else
          updateReferralStatusWrite db user referral status notes? now

/-- Example patient account, unaffiliated with any hospital. -/
def exPatient1 : User :=
  { _id := 1, role := Role.patient, approvalStatus := ApprovalStatus.approved }

/-- Example doctor of hospital 7, a stranger to the referral below. -/
def exDoctorX : User :=
  { _id := 2, role := Role.doctor, hospitalId := some 7,
    approvalStatus := ApprovalStatus.approved }

/-- Example super admin. -/
def exSuperAdmin : User :=
  { _id := 9, role := Role.super_admin, approvalStatus := ApprovalStatus.approved }

/-- Example referral from hospital 4 to hospital 5, patient 50. -/
def exReferralA : Referral :=
  { _id := 100, referralId := "REF000000010001", patient := 50,
    referringDoctor := 3, referringHospital := 4, receivingHospital := 5,
    reason := "cardiology consult", specialty := "cardiology",
    chiefComplaint := "chest pain", createdAt := 10 }

/-- Example store used by the status-update claims. -/
def exDB_A : DB :=
  { users := [exPatient1, exDoctorX, exSuperAdmin], referrals := [exReferralA] }

/-- Claim C2 — the code does not enforce it.  The status-update route has no
role restriction and the handler checks authority only for actors with role
`hospital`, so a patient with no hospital affiliation and a doctor of an
unrelated hospital both successfully change the status of a referral whose
receiving hospital is hospital 5, and the change persists. -/
theorem c2_status_change_without_authority_eval :
    ((updateReferralStatus exDB_A exPatient1 100 (some "accepted") none 1000).2
        = ApiResult.ok { exReferralA with
            status := "accepted"
            timeline := [{ action := none, timestamp := 1000, performedBy := none,
                           notes := some "Status changed to accepted" }] })
    ∧ ((findReferralById (updateReferralStatus exDB_A exPatient1 100
          (some "accepted") none 1000).1 100).map Referral.status = some "accepted")
    ∧ ((findReferralById (updateReferralStatus exDB_A exDoctorX 100
          (some "rejected") none 1001).1 100).map Referral.status = some "rejected")
    ∧ exPatient1.role ≠ Role.super_admin ∧ exPatient1.hospitalId = none
    ∧ exDoctorX.role ≠ Role.super_admin ∧ exDoctorX.hospitalId ≠ some 5 := by
  decide

/-- Claim C3 — the enum validation is split inconsistently between the
controller and the schema.  A value outside the six-value controller list is
rejected with 400 and the referral is unchanged, and `accepted` is persisted;
but `in_progress`, though inside the controller's list, is absent from the
schema `status` enum, so `save()` throws and the call fails with 500, the
referral unchanged. -/
theorem c3_in_progress_fails_schema_validation_eval :
    (updateReferralStatus exDB_A exSuperAdmin 100 (some "in_progress") none 1000
        = (exDB_A, ApiResult.err 500 "Error updating referral status"))
    ∧ (updateReferralStatus exDB_A exSuperAdmin 100 (some "bogus") none 1000
        = (exDB_A, ApiResult.err 400 "Invalid status"))
    ∧ ((findReferralById (updateReferralStatus exDB_A exSuperAdmin 100
          (some "accepted") none 1000).1 100).map Referral.status = some "accepted") := by
  decide

/-- Store after a first successful status update (notes supplied). -/
def exDB_A1 : DB :=
  (updateReferralStatus exDB_A exSuperAdmin 100 (some "accepted")
    (some "please expedite") 1000).1

/-- Store after a second successful status update (no notes). -/
def exDB_A2 : DB :=
  (updateReferralStatus exDB_A1 exSuperAdmin 100 (some "completed") none 2000).1

/-- Claim C4 — the append-one-entry-per-call count holds (two entries after
two successful calls, creation added none), but the stored entries record
neither the new status nor the acting user: the controller pushes the keys
`status` and `updatedBy`, which are not paths of the timeline subdocument
schema (`action`, `timestamp`, `performedBy`, `notes`), so mongoose drops
them and `performedBy` stays unset. -/
theorem c4_timeline_entries_lose_status_and_actor_eval :
    exReferralA.timeline = []
    ∧ ((findReferralById exDB_A2 100).map Referral.timeline
        = some [{ action := none, timestamp := 1000, performedBy := none,
                  notes := some "please expedite" },
                { action := none, timestamp := 2000, performedBy := none,
                  notes := some "Status changed to completed" }]) := by
  decide

/-- Atomic conditions that appear in the referral queries the controllers
build: the reference-equality filters of the role scopes and id filters, and
the case-insensitive `$regex` search filters. -/
inductive RCond
  | referringHospital (h : Nat)
  | receivingHospital (h : Nat)
  | referringDoctor (d : Nat)
  | receivingDoctor (d : Nat)
  | referralIdRegex (s : String)
  | reasonRegex (s : String)
  | chiefComplaintRegex (s : String)
  | specialtyRegex (s : String)
deriving DecidableEq, Repr

/-- Satisfaction of one atomic condition by a referral document. -/
def rcondMatches (r : Referral) : RCond → Bool
  | RCond.referringHospital h => decide (r.referringHospital = h)
  | RCond.receivingHospital h => decide (r.receivingHospital = h)
  | RCond.referringDoctor d => decide (r.referringDoctor = d)
  | RCond.receivingDoctor d => decide (r.receivingDoctor = some d)
  | RCond.referralIdRegex s => iContains r.referralId s
  | RCond.reasonRegex s => iContains r.reason s
  | RCond.chiefComplaintRegex s => iContains r.chiefComplaint s
  | RCond.specialtyRegex s => iContains r.specialty s

/-- Shape of the mongo query object `getReferrals` builds: direct equality
filters, an optional top-level `$or`, and the optional
`$and: [{$or: scope}, {$or: search}]` combination. -/
structure ReferralQuery where
  patient : Option Nat := none
  status : Option String := none
  priority : Option String := none
  specialty : Option String := none
  orConds : Option (List RCond) := none
  andConds : Option (List RCond × List RCond) := none
deriving DecidableEq, Repr

/-- Satisfaction of the whole query by a referral document. -/
def queryMatches (q : ReferralQuery) (r : Referral) : Bool :=
  (match q.patient with | none => true | some p => decide (r.patient = p))
    && (match q.status with | none => true | some s => decide (r.status = s))
    && (match q.priority with | none => true | some s => decide (r.priority = s))
    && (match q.specialty with | none => true | some s => decide (r.specialty = s))
    && (match q.orConds with
        | none => true
        | some cs => cs.any (rcondMatches r))
    && (match q.andConds with
        | none => true
        | some (a, b) => a.any (rcondMatches r) && b.any (rcondMatches r))

/-- Query-string parameters of GET /api/referrals. -/
structure ReferralListParams where
  status : Option String := none
  priority : Option String := none
  specialty : Option String := none
  search : Option String := none
  page : Nat := 1
  limit : Nat := 10
  hospitalId : Option Nat := none
  patientId : Option Nat := none
  doctorId : Option Nat := none
deriving DecidableEq, Repr

/-- Query construction of `getReferrals`, translated statement by statement:
role-based `$or` scope conditions; direct filters; the `hospitalId` and
`doctorId` filters only for super admins; the `patientId` filter assigned to
`query.patient` unconditionally (overwriting the patient role scope written
just before); and the search conditions combined with any existing `$or`
conditions under `$and`, or standing alone as `$or`. -/
def buildGetReferralsQuery (user : User) (p : ReferralListParams) :
    ReferralQuery :=
  let qPatient0 : Option Nat :=
    if user.role = Role.patient then some user._id else none
  let roleConds : List RCond :=
    if user.role = Role.hospital ∧ user.hospitalId.isSome then
      [RCond.referringHospital (user.hospitalId.getD 0),
       RCond.receivingHospital (user.hospitalId.getD 0)]
    else if user.role = Role.doctor then
      [RCond.referringDoctor user._id, RCond.receivingDoctor user._id]
    else []
  let hospConds : List RCond :=
    match p.hospitalId with
    | some h =>
      if user.role = Role.super_admin then
        [RCond.referringHospital h, RCond.receivingHospital h]
      else []
    | none => []
  let docConds : List RCond :=
    match p.doctorId with
    | some d =>
      if user.role = Role.super_admin then
        [RCond.referringDoctor d, RCond.receivingDoctor d]
      else []
    | none => []
  let orConditions := roleConds ++ hospConds ++ docConds
  let qPatient : Option Nat :=
    match p.patientId with
    | some pid => some pid
    | none => qPatient0
  let base : ReferralQuery :=
    { patient := qPatient
      status := presentStr p.status
      priority := presentStr p.priority
      specialty := presentStr p.specialty }
  match presentStr p.search with
  | some s =>
    let searchConditions :=
      [RCond.referralIdRegex s, RCond.reasonRegex s,
       RCond.chiefComplaintRegex s, RCond.specialtyRegex s]
    if orConditions ≠ [] then
      { base with andConds := some (orConditions, searchConditions) }
    else
      { base with orConds := some searchConditions }
  | none =>
    if orConditions ≠ [] then { base with orConds := some orConditions }
    else base

/-- Model of `getReferrals` (GET /api/referrals): filter by the built query,
sort by `createdAt` descending, paginate. -/
def getReferrals (db : DB) (user : User) (p : ReferralListParams) :
    List Referral :=
  let q := buildGetReferralsQuery user p
  let rs := (db.referrals.filter (queryMatches q))
  let sorted := sortWith (fun a b => decide (b.createdAt ≤ a.createdAt)) rs
  (sorted.drop ((p.page - 1) * p.limit)).take p.limit

/-- Second example patient, owner of the referral below. -/
def exPatient2 : User :=
  { _id := 60, role := Role.patient, approvalStatus := ApprovalStatus.approved }

/-- Referral belonging to patient 60. -/
def exReferralB : Referral :=
  { _id := 101, referralId := "REF000000020002", patient := 60,
    referringDoctor := 3, referringHospital := 4, receivingHospital := 5,
    reason := "dermatology consult", specialty := "dermatology",
    chiefComplaint := "rash", createdAt := 20 }

/-- Store used by the listing claims. -/
def exDB_B : DB :=
  { users := [exPatient1, exPatient2, exDoctorX, exSuperAdmin],
    referrals := [exReferralA, exReferralB] }

/-- Claim C1 — the code does not enforce it.  Patient 1 lists referrals
supplying the filter `patientId=60`; the handler first writes the role scope
`query.patient = actorId` and then overwrites it with the supplied
`patientId`, so patient 60's referral is returned to patient 1. -/
theorem c1_patient_scope_overridden_by_patientId_eval :
    (getReferrals exDB_B exPatient1 { patientId := some 60 } = [exReferralB])
    ∧ exReferralB.patient ≠ exPatient1._id
    ∧ (getReferrals exDB_B exPatient1 {} = []) := by
  decide

/-- Query-string parameters of GET /api/doctors/:id/referrals. -/
structure DoctorReferralParams where
  page : Nat := 1
  limit : Nat := 10
  status : Option String := none
  priority : Option String := none
  search : Option String := none
deriving DecidableEq, Repr

/-- Model of `getDoctorReferrals` (GET /api/doctors/:id/referrals).  After
the permission checks, the query starts from the scope
`$or: [{referringDoctor: id}, {receivingDoctor: id}]`; when a search term is
present the handler spreads the scope conditions and the search conditions
into one flat `$or` (`query.$or = [...query.$or, ...searchConds]`), instead
of nesting them under `$and`. -/
def getDoctorReferrals (db : DB) (user : User) (id : Nat)
    (p : DoctorReferralParams) : ApiResult (List Referral) :=
  match findUserById db id with
  | none => ApiResult.err 404 "Doctor not found"
  | some doctor =>
    if doctor.role ≠ Role.doctor then ApiResult.err 404 "Doctor not found"
    else if user.role = Role.doctor ∧ user._id ≠ id then
      ApiResult.err 403 "Access denied"
    else if user.role = Role.hospital ∧ user.hospitalId.isSome
        ∧ doctor.hospitalId ≠ user.hospitalId then
      ApiResult.err 403 "Access denied"
    else
      let baseOr : List RCond :=
        [RCond.referringDoctor id, RCond.receivingDoctor id]
      let qStatus :=
        match presentStr p.status with
        | some s => if s = "all" then none else some s
        | none => none
      let qPriority :=
        match presentStr p.priority with
        | some s => if s = "all" then none else some s
        | none => none
      let orConds :=
        match presentStr p.search with
        | some s =>
          baseOr ++ [RCond.referralIdRegex s, RCond.reasonRegex s,
                     RCond.specialtyRegex s]
        | none => baseOr
      let q : ReferralQuery :=
        { status := qStatus, priority := qPriority, orConds := some orConds }
      let sorted := sortWith (fun a b => decide (b.createdAt ≤ a.createdAt))
        (db.referrals.filter (queryMatches q))
      ApiResult.ok ((sorted.drop ((p.page - 1) * p.limit)).take p.limit)

/-- Claim C5 — `getReferrals` does nest scope and search under `$and`, but
`getDoctorReferrals` flattens them into one `$or`: doctor 2, listing their
own referrals with the search term `ref`, receives both referrals of the
store although neither involves doctor 2 at all — each matches the search
condition alone.  Without a search term the scope holds, and the same search
through `getReferrals` leaks nothing. -/
theorem c5_doctor_referrals_search_flattens_scope_eval :
    (getDoctorReferrals exDB_B exDoctorX 2 { search := some "ref" }
        = ApiResult.ok [exReferralB, exReferralA])
    ∧ exReferralA.referringDoctor ≠ exDoctorX._id
    ∧ exReferralA.receivingDoctor ≠ some exDoctorX._id
    ∧ exReferralB.referringDoctor ≠ exDoctorX._id
    ∧ exReferralB.receivingDoctor ≠ some exDoctorX._id
    ∧ (getDoctorReferrals exDB_B exDoctorX 2 {} = ApiResult.ok [])
    ∧ (getReferrals exDB_B exDoctorX { search := some "ref" } = []) := by
  decide

/-- Query-string parameters of GET /api/doctors. -/
structure DoctorListParams where
  status : Option String := none
  search : Option String := none
  page : Nat := 1
  limit : Nat := 10
  specialization : Option String := none
  hospitalId : Option Nat := none
deriving DecidableEq, Repr

/-- String form of an approval status as stored; the raw `status` query
parameter of `getDoctors` is compared against it. -/
def approvalStatusToString : ApprovalStatus → String
  | ApprovalStatus.pending => "pending"
  | ApprovalStatus.approved => "approved"
  | ApprovalStatus.rejected => "rejected"

/-- The mongo filter `getDoctors` builds, translated statement by statement:
base `{role: 'doctor'}`; an explicit `hospitalId` query parameter replaces
the hospital-admin default own-hospital scope; the `status` shorthand
filters (`active`, `inactive`, else literal approval status); the
specialization regex; and the `$or` search block over profile fields. -/
def doctorFilterMatches (user : User) (p : DoctorListParams) (u : User) :
    Bool :=
  decide (u.role = Role.doctor)
    && (match p.hospitalId with
        | some h => decide (u.hospitalId = some h)
        | none =>
          if user.role = Role.hospital ∧ user.hospitalId.isSome then
            decide (u.hospitalId = user.hospitalId)
          else true)
    && (match presentStr p.status with
        | none => true
        | some s =>
          if s = "all" then true
          else if s = "active" then
            decide (u.approvalStatus = ApprovalStatus.approved) && u.isActive
          else if s = "inactive" then !u.isActive
          else decide (approvalStatusToString u.approvalStatus = s))
    && (match presentStr p.specialization with
        | none => true
        | some s => if s = "all" then true else iContains u.specialization s)
    && (match presentStr p.search with
        | none => true
        | some s =>
          iContains u.firstName s || iContains u.lastName s
            || iContains u.email s || iContains u.phone s
            || iContains u.specialization s || iContains u.licenseNumber s)

/-- Model of `getDoctors` (GET /api/doctors): filter, sort by `createdAt`
descending, paginate. -/
def getDoctors (db : DB) (user : User) (p : DoctorListParams) : List User :=
  let ds := db.users.filter (doctorFilterMatches user p)
  let sorted := sortWith (fun a b => decide (b.createdAt ≤ a.createdAt)) ds
  (sorted.drop ((p.page - 1) * p.limit)).take p.limit

/-- Model of `getDoctorById` (GET /api/doctors/:id).  For a hospital-admin
caller the handler allows: own-hospital doctors regardless of approval
status, approved doctors of other hospitals, and approved clinic doctors
(no `hospitalId`); every other caller role is let through. -/
def getDoctorById (db : DB) (user : User) (id : Nat) : ApiResult User :=
  match findUserById db id with
  | none => ApiResult.err 404 "Doctor not found"
  | some doctor =>
    if doctor.role ≠ Role.doctor then ApiResult.err 404 "Doctor not found"
    else if user.role = Role.hospital ∧ user.hospitalId.isSome then
      if doctor.hospitalId = user.hospitalId
          ∨ (doctor.hospitalId.isSome ∧ doctor.hospitalId ≠ user.hospitalId
              ∧ doctor.approvalStatus = ApprovalStatus.approved)
          ∨ (doctor.hospitalId = none
              ∧ doctor.approvalStatus = ApprovalStatus.approved) then
        ApiResult.ok doctor
      else
        ApiResult.err 403 "Access denied. You can only view doctors from your hospital or approved doctors from other hospitals."
    else ApiResult.ok doctor

/-- Membership is preserved by sorted insertion. -/
theorem mem_insertSorted {α : Type} (le : α → α → Bool) (x y : α)
    (l : List α) : y ∈ insertSorted le x l ↔ y = x ∨ y ∈ l := by
  induction l with
  | nil => simp [insertSorted]
  | cons a t ih =>
    simp only [insertSorted]
    split
    · simp
    · simp [ih]
      tauto

/-- Membership is preserved by the insertion sort. -/
theorem mem_sortWith {α : Type} (le : α → α → Bool) (y : α) (l : List α) :
    y ∈ sortWith le l ↔ y ∈ l := by
  induction l with
  | nil => simp [sortWith]
  | cons a t ih => simp [sortWith, mem_insertSorted, ih]

/-- Every member of a doctor listing satisfies the built filter. -/
theorem mem_getDoctors (db : DB) (user : User) (p : DoctorListParams)
    (d : User) (hd : d ∈ getDoctors db user p) :
    d ∈ db.users ∧ doctorFilterMatches user p d = true := by
  have hd' : d ∈ ((sortWith (fun a b => decide (b.createdAt ≤ a.createdAt))
      (db.users.filter (doctorFilterMatches user p))).drop
        ((p.page - 1) * p.limit)).take p.limit := hd
  have h1 : d ∈ sortWith (fun a b => decide (b.createdAt ≤ a.createdAt))
      (db.users.filter (doctorFilterMatches user p)) :=
    List.drop_subset _ _ (List.take_subset _ _ hd')
  rw [mem_sortWith] at h1
  exact ⟨(List.mem_filter.1 h1).1, (List.mem_filter.1 h1).2⟩

/-- Example hospital-admin account of hospital 1. -/
def exAdminH1 : User :=
  { _id := 70, role := Role.hospital, hospitalId := some 1,
    approvalStatus := ApprovalStatus.approved }

/-- Example doctor of hospital 2 who is still pending approval. -/
def exDocPendingH2 : User :=
  { _id := 40, role := Role.doctor, hospitalId := some 2,
    approvalStatus := ApprovalStatus.pending, createdAt := 30 }

/-- Example approved doctor of hospital 2. -/
def exDocApprovedH2 : User :=
  { _id := 41, role := Role.doctor, hospitalId := some 2,
    approvalStatus := ApprovalStatus.approved, createdAt := 31 }

/-- Store used by the doctor-visibility claim. -/
def exDB_C : DB :=
  { users := [exAdminH1, exDocPendingH2, exDocApprovedH2] }

/-- Claim C6 — counterexample.  The doctor-listing operation does not apply
the approved-only rule: the admin of hospital 1, listing with the explicit
filter `hospitalId=2`, receives hospital 2's still-pending doctor; and the
default listing omits hospital 2's approved doctor entirely. -/
theorem c6_pending_foreign_doctor_listed_counterexample :
    (getDoctors exDB_C exAdminH1 { hospitalId := some 2 }
        = [exDocApprovedH2, exDocPendingH2])
    ∧ exDocPendingH2.approvalStatus ≠ ApprovalStatus.approved
    ∧ exDocPendingH2.hospitalId ≠ exAdminH1.hospitalId
    ∧ (getDoctors exDB_C exAdminH1 {} = [])
    ∧ exDocApprovedH2.approvalStatus = ApprovalStatus.approved := by
  decide

/-- Claim C6 as amended: the approved-if-and-only-if rule holds for the
doctor-fetch operation (`getDoctorById`) — a doctor whose `hospitalId`
differs from the admin's (including clinic doctors) is visible iff approved,
an own-hospital doctor always — while the doctor-listing operation
(`getDoctors`) scopes a hospital admin to the admin's own hospital by
default, and a caller-supplied `hospitalId` filter replaces that scope with
the requested hospital without any approval-status restriction. -/
theorem c6_doctor_visibility_amended (db : DB) (admin : User) (a : Nat)
    (hrole : admin.role = Role.hospital) (hhid : admin.hospitalId = some a) :
    (∀ did d, findUserById db did = some d → d.role = Role.doctor →
        d.hospitalId ≠ some a →
        (getDoctorById db admin did = ApiResult.ok d ↔
          d.approvalStatus = ApprovalStatus.approved))
    ∧ (∀ did d, findUserById db did = some d → d.role = Role.doctor →
        d.hospitalId = some a → getDoctorById db admin did = ApiResult.ok d)
    ∧ (∀ p : DoctorListParams, p.hospitalId = none →
        ∀ d ∈ getDoctors db admin p, d.hospitalId = some a)
    ∧ (∀ (p : DoctorListParams) (h : Nat), p.hospitalId = some h →
        ∀ d ∈ getDoctors db admin p, d.hospitalId = some h) := by
  refine ⟨?_, ?_, ?_, ?_⟩
  · intro did d hfind hrd hne
    cases hcase : d.hospitalId with
    | none =>
      cases happ : d.approvalStatus <;>
        simp [getDoctorById, hfind, hrd, hrole, hhid, hcase, happ]
    | some b =>
      have hba : (some b : Option Nat) ≠ some a := hcase ▸ hne
      cases happ : d.approvalStatus <;>
        simp [getDoctorById, hfind, hrd, hrole, hhid, hcase, happ, hba]
  · intro did d hfind hrd heq
    simp [getDoctorById, hfind, hrd, hrole, hhid, heq]
  · intro p hp d hd
    have h := (mem_getDoctors db admin p d hd).2
    simp [doctorFilterMatches, hp, hrole, hhid] at h
    exact h.1.1.1.2
  · intro p h hp d hd
    have hm := (mem_getDoctors db admin p d hd).2
    simp [doctorFilterMatches, hp] at hm
    exact hm.1.1.1.2

/-- Witness for the amended claim C6 at the concrete store: the admin of
hospital 1 against the example database. -/
theorem c6_doctor_visibility_amended_witness :
    (∀ did d, findUserById exDB_C did = some d → d.role = Role.doctor →
        d.hospitalId ≠ some 1 →
        (getDoctorById exDB_C exAdminH1 did = ApiResult.ok d ↔
          d.approvalStatus = ApprovalStatus.approved))
    ∧ (∀ did d, findUserById exDB_C did = some d → d.role = Role.doctor →
        d.hospitalId = some 1 →
        getDoctorById exDB_C exAdminH1 did = ApiResult.ok d)
    ∧ (∀ p : DoctorListParams, p.hospitalId = none →
        ∀ d ∈ getDoctors exDB_C exAdminH1 p, d.hospitalId = some 1)
    ∧ (∀ (p : DoctorListParams) (h : Nat), p.hospitalId = some h →
        ∀ d ∈ getDoctors exDB_C exAdminH1 p, d.hospitalId = some h) :=
  c6_doctor_visibility_amended exDB_C exAdminH1 1 (by decide) (by decide)

/-- Sorted insertion grows the length by one. -/
theorem insertSorted_length {α : Type} (le : α → α → Bool) (x : α)
    (l : List α) : (insertSorted le x l).length = l.length + 1 := by
  induction l with
  | nil => simp [insertSorted]
  | cons a t ih =>
    simp only [insertSorted]
    split
    · simp
    · simp [ih]

/-- The insertion sort preserves length. -/
theorem sortWith_length {α : Type} (le : α → α → Bool) (l : List α) :
    (sortWith le l).length = l.length := by
  induction l with
  | nil => rfl
  | cons a t ih => simp [sortWith, insertSorted_length, ih]

/-- The insertion sort returns the empty list only on the empty list. -/
theorem sortWith_eq_nil_iff {α : Type} (le : α → α → Bool) (l : List α) :
    sortWith le l = [] ↔ l = [] := by
  rw [← List.length_eq_zero, sortWith_length, List.length_eq_zero]

/-- The head of an ascending insertion sort by a `Nat` key is a member of
the list with a minimal key. -/
theorem sortWith_head?_min {α : Type} (key : α → Nat) (l : List α) (d : α)
    (h : (sortWith (fun a b => decide (key a ≤ key b)) l).head? = some d) :
    d ∈ l ∧ ∀ x ∈ l, key d ≤ key x := by
  induction l generalizing d with
  | nil => simp [sortWith] at h
  | cons x xs ih =>
    simp only [sortWith] at h
    cases hs : sortWith (fun a b => decide (key a ≤ key b)) xs with
    | nil =>
      rw [hs] at h
      simp only [insertSorted, List.head?_cons, Option.some.injEq] at h
      subst h
      have hxs : xs = [] := (sortWith_eq_nil_iff _ _).1 hs
      subst hxs
      refine ⟨List.mem_singleton_self x, ?_⟩
      intro y hy
      simp at hy
      simp [hy]
    | cons m t =>
      rw [hs] at h
      have ihm : m ∈ xs ∧ ∀ y ∈ xs, key m ≤ key y := ih m (by rw [hs]; rfl)
      simp only [insertSorted] at h
      by_cases hle : key x ≤ key m
      · rw [if_pos (by simpa using hle)] at h
        simp only [List.head?_cons, Option.some.injEq] at h
        subst h
        refine ⟨List.mem_cons_self _ _, ?_⟩
        intro y hy
        rcases List.mem_cons.1 hy with hy | hy
        · simp [hy]
        · exact Nat.le_trans hle (ihm.2 y hy)
      · rw [if_neg (by simpa using hle)] at h
        simp only [List.head?_cons, Option.some.injEq] at h
        subst h
        have hmx : key m ≤ key x := Nat.le_of_lt (Nat.lt_of_not_le hle)
        refine ⟨List.mem_cons_of_mem _ ihm.1, ?_⟩
        intro y hy
        rcases List.mem_cons.1 hy with hy | hy
        · simp [hy, hmx]
        · exact ihm.2 y hy

/-- The mongo filter of the default-doctor lookup in `createReferral`:
`{role: 'doctor', hospitalId: user.hospitalId, approvalStatus: 'approved',
isActive: true}`.  When the caller has no `hospitalId`, the undefined value
is stripped from the query and the key imposes no constraint. -/
def approvedActiveDoctorMatches (uhid : Option Nat) (u : User) : Bool :=
  decide (u.role = Role.doctor)
    && (match uhid with
        | some h => decide (u.hospitalId = some h)
        | none => true)
    && decide (u.approvalStatus = ApprovalStatus.approved)
    && u.isActive

/-- Model of `User.findOne({...}).sort({createdAt: 1})`: the first document
of the matching set in ascending `createdAt` order. -/
def defaultDoctor (db : DB) (uhid : Option Nat) : Option User :=
  (sortWith (fun a b => decide (a.createdAt ≤ b.createdAt))
    (db.users.filter (approvedActiveDoctorMatches uhid))).head?

/-- Unfolded form of the default-doctor filter with a known hospital. -/
theorem approvedActiveDoctorMatches_iff (a : Nat) (u : User) :
    approvedActiveDoctorMatches (some a) u = true ↔
      (u.role = Role.doctor ∧ u.hospitalId = some a ∧
        u.approvalStatus = ApprovalStatus.approved ∧ u.isActive = true) := by
  simp [approvedActiveDoctorMatches, and_assoc]

/-- The default-doctor lookup is empty exactly when the hospital has no
approved and active doctor. -/
theorem defaultDoctor_none_iff (db : DB) (a : Nat) :
    defaultDoctor db (some a) = none ↔
      ∀ u ∈ db.users, ¬(u.role = Role.doctor ∧ u.hospitalId = some a ∧
        u.approvalStatus = ApprovalStatus.approved ∧ u.isActive = true) := by
  simp only [defaultDoctor, List.head?_eq_none_iff, sortWith_eq_nil_iff,
    List.filter_eq_nil_iff]
  constructor
  · intro h u hu hprop
    exact h u hu ((approvedActiveDoctorMatches_iff a u).2 hprop)
  · intro h u hu hm
    exact h u hu ((approvedActiveDoctorMatches_iff a u).1 hm)

/-- A found default doctor is an approved, active doctor of the hospital
with minimal creation time among those. -/
theorem defaultDoctor_spec (db : DB) (a : Nat) (d : User)
    (h : defaultDoctor db (some a) = some d) :
    (d ∈ db.users ∧ d.role = Role.doctor ∧ d.hospitalId = some a ∧
      d.approvalStatus = ApprovalStatus.approved ∧ d.isActive = true)
    ∧ ∀ u ∈ db.users, u.role = Role.doctor → u.hospitalId = some a →
        u.approvalStatus = ApprovalStatus.approved → u.isActive = true →
        d.createdAt ≤ u.createdAt := by
  have hmin := sortWith_head?_min (fun u : User => u.createdAt) _ d h
  obtain ⟨hmem, hminny⟩ := hmin
  have hfm := List.mem_filter.1 hmem
  have hp := (approvedActiveDoctorMatches_iff a d).1 hfm.2
  refine ⟨⟨hfm.1, hp⟩, ?_⟩
  intro u hu hur huh hua hui
  exact hminny u (List.mem_filter.2
    ⟨hu, (approvedActiveDoctorMatches_iff a u).2 ⟨hur, huh, hua, hui⟩⟩)

/-- Request body of POST /api/referrals.  The `diagnosis` payload is
modelled in its string form (the object form concerns payload shapes none
of the claims exercise). -/
structure CreateReferralBody where
  patientId : Option Nat := none
  receivingHospitalId : Option Nat := none
  receivingDoctorId : Option Nat := none
  referringDoctorId : Option Nat := none
  reason : String := ""
  priority : Option String := none
  specialty : String := ""
  chiefComplaint : String := ""
  historyOfPresentIllness : Option String := none
  physicalExamination : Option String := none
  vitalSigns : Option VitalSigns := none
  diagnosis : Option String := none
  treatmentPlan : Option String := none
  notes : Option String := none
deriving DecidableEq, Repr

/-- Zero-padding to a fixed width, the `padStart(4, '0')` of the id
generator. -/
def padNum (width n : Nat) : String :=
  let s := toString n
  String.mk (List.replicate (width - s.length) '0') ++ s

/-- Model of `Referral.generateReferralId`: `REF` + the last eight digits of
the current epoch milliseconds + four random digits. -/
def generateReferralId (now rand : Nat) : String :=
  "REF" ++ padNum 8 (now % 100000000) ++ padNum 4 (rand % 10000)

/-- Resolution of the referring doctor and hospital in `createReferral`.
For a doctor caller: the caller and their hospital-or-clinic.  For a
hospital-admin caller with an explicit `referringDoctorId`: that doctor, who
must exist, have role doctor and belong to the admin's hospital (if the
admin has no `hospitalId`, the `user.hospitalId.toString()` comparison
throws, surfacing as the catch-all 500).  Without an explicit id: the
default-doctor lookup, whose empty result is the no-approved-doctor 400.
Any other caller role leaves both unset, caught by the subsequent
requiredness check. -/
def resolveReferring (db : DB) (user : User) (body : CreateReferralBody) :
    ApiResult (Nat × Nat) :=
  if user.role = Role.doctor then
    match user.hospitalId <|> user.clinicId with
    | some rh => ApiResult.ok (user._id, rh)
    | none => ApiResult.err 400 "Referring doctor and hospital are required"
  else if user.role = Role.hospital then
    match body.referringDoctorId with
    | some rdid =>
      match user.hospitalId with
      | none => ApiResult.err 500 "Error creating referral"
      | some uh =>
        match findUserById db rdid with
        | some specifiedDoctor =>
          if specifiedDoctor.role = Role.doctor
              ∧ specifiedDoctor.hospitalId = some uh then
            ApiResult.ok (specifiedDoctor._id, uh)
          else
            ApiResult.err 400 "Invalid referring doctor. Doctor must belong to your hospital."
        | none =>
          ApiResult.err 400 "Invalid referring doctor. Doctor must belong to your hospital."
    | none =>
      match defaultDoctor db user.hospitalId with
      | some d =>
        match user.hospitalId with
        | some uh => ApiResult.ok (d._id, uh)
        | none => ApiResult.err 400 "Referring doctor and hospital are required"
      | none =>
        ApiResult.err 400 "No approved doctor found in your hospital. Please assign a doctor first or specify a referring doctor in the form."
  else ApiResult.err 400 "Referring doctor and hospital are required"

/-- Model of `createReferral` (POST /api/referrals): required-field check,
patient and receiving-hospital existence checks, referring resolution, then
construction and `save()` of the new referral (status `pending`, empty
timeline; the body's `notes` and `treatmentPlan` keys are not schema paths
and are dropped). -/
def createReferral (db : DB) (user : User) (body : CreateReferralBody)
    (newId now rand : Nat) : DB × ApiResult Referral :=
  match body.patientId, body.receivingHospitalId with
  | some patientId, some receivingHospitalId =>
    if body.reason = "" ∨ body.specialty = "" ∨ body.chiefComplaint = "" then
      (db, ApiResult.err 400 "Patient, receiving hospital, reason, specialty, and chief complaint are required")
    else
      match findUserById db patientId with
      | none => (db, ApiResult.err 400 "Invalid patient ID")
      | some patient =>
        if patient.role ≠ Role.patient then
          (db, ApiResult.err 400 "Invalid patient ID")
        else
          match findHospitalById db receivingHospitalId with
          | none => (db, ApiResult.err 400 "Invalid receiving hospital ID")
          | some _ =>
            match resolveReferring db user body with
            | ApiResult.err c m => (db, ApiResult.err c m)
            | ApiResult.ok (referringDoctor, referringHospital) =>
              let referral : Referral :=
                { _id := newId
                  referralId := generateReferralId now rand
                  patient := patientId
                  referringDoctor := referringDoctor
                  referringHospital := referringHospital
                  receivingDoctor := body.receivingDoctorId
                  receivingHospital := receivingHospitalId
                  reason := body.reason
                  priority := jsOrStr body.priority "medium"
                  specialty := body.specialty
                  chiefComplaint := body.chiefComplaint
                  historyOfPresentIllness := body.historyOfPresentIllness.getD ""
                  physicalExamination := body.physicalExamination.getD ""
                  vitalSigns := body.vitalSigns.getD {}
                  diagnosis :=
                    match presentStr body.diagnosis with
                    | some dg => { primary := dg, secondary := [] }
                    | none => {}
                  status := "pending"
                  timeline := []
                  createdAt := now }
              if referralValid referral then
                ({ db with referrals := db.referrals ++ [referral] },
                  ApiResult.ok referral)
              else (db, ApiResult.err 500 "Error creating referral")
  | _, _ =>
    (db, ApiResult.err 400 "Patient, receiving hospital, reason, specialty, and chief complaint are required")

/-- Claim C7: a hospital-admin creating a referral without an explicit
`referringDoctorId` gets the earliest-created approved and active doctor of
the admin's hospital as referring doctor; with no such doctor the creation
fails with the no-approved-doctor 400 and no referral is created; and an
explicit `referringDoctorId` that does not resolve to a doctor of the
admin's hospital fails with the invalid-referring-doctor 400. -/
theorem c7_create_referral_referring_doctor (db : DB) (user : User)
    (body : CreateReferralBody) (newId now rand a pid rhid : Nat)
    (pat : User) (hos : Hospital)
    (hrole : user.role = Role.hospital) (hhid : user.hospitalId = some a)
    (hpid : body.patientId = some pid)
    (hrhid : body.receivingHospitalId = some rhid)
    (hreason : body.reason ≠ "") (hspec : body.specialty ≠ "")
    (hcc : body.chiefComplaint ≠ "")
    (hpat : findUserById db pid = some pat)
    (hpatrole : pat.role = Role.patient)
    (hhos : findHospitalById db rhid = some hos)
    (hprio : jsOrStr body.priority "medium" ∈ referralPriorityEnum) :
    (body.referringDoctorId = none →
      (∀ u ∈ db.users, ¬(u.role = Role.doctor ∧ u.hospitalId = some a ∧
          u.approvalStatus = ApprovalStatus.approved ∧ u.isActive = true)) →
      createReferral db user body newId now rand
        = (db, ApiResult.err 400 "No approved doctor found in your hospital. Please assign a doctor first or specify a referring doctor in the form."))
    ∧ (∀ d, body.referringDoctorId = none →
        defaultDoctor db (some a) = some d →
        (d.role = Role.doctor ∧ d.hospitalId = some a ∧
          d.approvalStatus = ApprovalStatus.approved ∧ d.isActive = true)
        ∧ (∀ u ∈ db.users, u.role = Role.doctor → u.hospitalId = some a →
            u.approvalStatus = ApprovalStatus.approved → u.isActive = true →
            d.createdAt ≤ u.createdAt)
        ∧ ∃ r, createReferral db user body newId now rand
              = ({ db with referrals := db.referrals ++ [r] }, ApiResult.ok r)
            ∧ r.referringDoctor = d._id)
    ∧ (∀ x, body.referringDoctorId = some x →
        (∀ doc, findUserById db x = some doc →
          doc.role ≠ Role.doctor ∨ doc.hospitalId ≠ some a) →
        createReferral db user body newId now rand
          = (db, ApiResult.err 400 "Invalid referring doctor. Doctor must belong to your hospital.")) := by
  have hnotdoc : user.role ≠ Role.doctor := by rw [hrole]; intro hc; cases hc
  refine ⟨?_, ?_, ?_⟩
  · intro h1 h2
    have hdd : defaultDoctor db (some a) = none := (defaultDoctor_none_iff db a).2 h2
    simp [createReferral, resolveReferring, hpid, hrhid, hreason, hspec, hcc,
      hpat, hpatrole, hhos, hrole, hhid, hnotdoc, h1, hdd]
  · intro d h1 hdd
    have hspd := defaultDoctor_spec db a d hdd
    have hv : referralValid
        { _id := newId
          referralId := generateReferralId now rand
          patient := pid
          referringDoctor := d._id
          referringHospital := a
          receivingDoctor := body.receivingDoctorId
          receivingHospital := rhid
          reason := body.reason
          priority := jsOrStr body.priority "medium"
          specialty := body.specialty
          chiefComplaint := body.chiefComplaint
          historyOfPresentIllness := body.historyOfPresentIllness.getD ""
          physicalExamination := body.physicalExamination.getD ""
          vitalSigns := body.vitalSigns.getD {}
          diagnosis :=
            match presentStr body.diagnosis with
            | some dg => { primary := dg, secondary := [] }
            | none => {}
          status := "pending"
          timeline := []
          createdAt := now } = true := by
      simp [referralValid, referralStatusEnum, hprio]
    refine ⟨hspd.1.2, hspd.2,
      ⟨{ _id := newId
         referralId := generateReferralId now rand
         patient := pid
         referringDoctor := d._id
         referringHospital := a
         receivingDoctor := body.receivingDoctorId
         receivingHospital := rhid
         reason := body.reason
         priority := jsOrStr body.priority "medium"
         specialty := body.specialty
         chiefComplaint := body.chiefComplaint
         historyOfPresentIllness := body.historyOfPresentIllness.getD ""
         physicalExamination := body.physicalExamination.getD ""
         vitalSigns := body.vitalSigns.getD {}
         diagnosis :=
           match presentStr body.diagnosis with
           | some dg => { primary := dg, secondary := [] }
           | none => {}
         status := "pending"
         timeline := []
         createdAt := now }, ?_, rfl⟩⟩
    simp [createReferral, resolveReferring, hpid, hrhid, hreason, hspec, hcc,
      hpat, hpatrole, hhos, hrole, hhid, hnotdoc, h1, hdd, hv]
  · intro x h1 h2
    cases hfx : findUserById db x with
    | none =>
      simp [createReferral, resolveReferring, hpid, hrhid, hreason, hspec,
        hcc, hpat, hpatrole, hhos, hrole, hhid, hnotdoc, h1, hfx]
    | some doc =>
      rcases h2 doc hfx with hnd | hnh
      · simp [createReferral, resolveReferring, hpid, hrhid, hreason, hspec,
          hcc, hpat, hpatrole, hhos, hrole, hhid, hnotdoc, h1, hfx, hnd]
      · simp [createReferral, resolveReferring, hpid, hrhid, hreason, hspec,
          hcc, hpat, hpatrole, hhos, hrole, hhid, hnotdoc, h1, hfx, hnh]

/-- Example hospital-admin of hospital 4. -/
def exAdminH4 : User :=
  { _id := 80, role := Role.hospital, hospitalId := some 4,
    approvalStatus := ApprovalStatus.approved }

/-- Example patient used by the creation claim. -/
def exPatient3 : User :=
  { _id := 90, role := Role.patient, approvalStatus := ApprovalStatus.approved }

/-- Later-created approved, active doctor of hospital 4. -/
def exDocD1 : User :=
  { _id := 91, role := Role.doctor, hospitalId := some 4,
    approvalStatus := ApprovalStatus.approved, createdAt := 50 }

/-- Earliest-created approved, active doctor of hospital 4. -/
def exDocD2 : User :=
  { _id := 92, role := Role.doctor, hospitalId := some 4,
    approvalStatus := ApprovalStatus.approved, createdAt := 40 }

/-- Even earlier doctor of hospital 4 who is still pending, hence ineligible. -/
def exDocD3 : User :=
  { _id := 93, role := Role.doctor, hospitalId := some 4,
    approvalStatus := ApprovalStatus.pending, createdAt := 10 }

/-- Receiving hospital of the creation claim. -/
def exHospB : Hospital :=
  { _id := 5, email := "b@hospital.example", status := HospitalStatus.approved }

/-- Store used by the creation claim. -/
def exDB_D : DB :=
  { users := [exAdminH4, exPatient3, exDocD1, exDocD2, exDocD3],
    hospitals := [exHospB] }

/-- Request body of the creation claim: no explicit referring doctor. -/
def exBody7 : CreateReferralBody :=
  { patientId := some 90, receivingHospitalId := some 5,
    reason := "cardiology consult", specialty := "cardiology",
    chiefComplaint := "chest pain" }

/-- Witness for claim C7 at the concrete store: admin of hospital 4, body
without a `referringDoctorId`. -/
theorem c7_create_referral_referring_doctor_witness :
    (exBody7.referringDoctorId = none →
      (∀ u ∈ exDB_D.users, ¬(u.role = Role.doctor ∧ u.hospitalId = some 4 ∧
          u.approvalStatus = ApprovalStatus.approved ∧ u.isActive = true)) →
      createReferral exDB_D exAdminH4 exBody7 200 3000 7
        = (exDB_D, ApiResult.err 400 "No approved doctor found in your hospital. Please assign a doctor first or specify a referring doctor in the form."))
    ∧ (∀ d, exBody7.referringDoctorId = none →
        defaultDoctor exDB_D (some 4) = some d →
        (d.role = Role.doctor ∧ d.hospitalId = some 4 ∧
          d.approvalStatus = ApprovalStatus.approved ∧ d.isActive = true)
        ∧ (∀ u ∈ exDB_D.users, u.role = Role.doctor → u.hospitalId = some 4 →
            u.approvalStatus = ApprovalStatus.approved → u.isActive = true →
            d.createdAt ≤ u.createdAt)
        ∧ ∃ r, createReferral exDB_D exAdminH4 exBody7 200 3000 7
              = ({ exDB_D with referrals := exDB_D.referrals ++ [r] },
                  ApiResult.ok r)
            ∧ r.referringDoctor = d._id)
    ∧ (∀ x, exBody7.referringDoctorId = some x →
        (∀ doc, findUserById exDB_D x = some doc →
          doc.role ≠ Role.doctor ∨ doc.hospitalId ≠ some 4) →
        createReferral exDB_D exAdminH4 exBody7 200 3000 7
          = (exDB_D, ApiResult.err 400 "Invalid referring doctor. Doctor must belong to your hospital.")) :=
  c7_create_referral_referring_doctor exDB_D exAdminH4 exBody7 200 3000 7
    4 90 5 exPatient3 exHospB rfl rfl rfl rfl (by decide) (by decide)
    (by decide) (by decide) rfl (by decide) (by decide)

/-- The cascade lookup of `approveHospital`: the pending hospital-admin
Account matching the hospital's email
(`User.findOne({email, role: 'hospital', approvalStatus: 'pending'})`). -/
def pendingHospitalUser (db : DB) (h : Hospital) : Option User :=
  db.users.find? (fun u =>
    decide (u.email = h.email ∧ u.role = Role.hospital ∧
      u.approvalStatus = ApprovalStatus.pending))

/-- Model of `approveHospital` (POST /api/approval/approve-hospital/:id,
route restricted to super admins): requires the hospital to be pending,
best-effort approves the matching pending hospital-admin Account, then
approves the hospital via `hospital.approve(approverId)`.  The optional
`message` only feeds the notification email, which is fire-and-forget. -/
def approveHospital (db : DB) (actor : User) (hospitalId : Nat)
    (message : Option String) (now : Nat) : DB × ApiResult Hospital :=
  match findHospitalById db hospitalId with
  | none => (db, ApiResult.err 404 "Hospital not found")
  | some hospital =>
    if hospital.status ≠ HospitalStatus.pending then
      (db, ApiResult.err 400 "Hospital is not pending approval")
    else
      let db1 :=
        match pendingHospitalUser db hospital with
        | some u =>
          saveUser db { u with
            approvalStatus := ApprovalStatus.approved
            approvedBy := some actor._id
            approvedAt := some now }
        | none => db
      let hospital2 := { hospital with
        status := HospitalStatus.approved
        approvedBy := some actor._id
        approvedAt := some now }
      (saveHospital db1 hospital2, ApiResult.ok hospital2)

/-- Claim C8: approving a pending Hospital approves the matching pending
hospital-admin Account with the same approver and the same timestamp, and
with no matching Account the Hospital is approved alone, the user collection
untouched. -/
theorem c8_approve_hospital_cascade (db : DB) (actor : User) (hid : Nat)
    (message : Option String) (now : Nat) (h : Hospital)
    (hfind : findHospitalById db hid = some h)
    (hpend : h.status = HospitalStatus.pending) :
    (∀ u, pendingHospitalUser db h = some u →
      ((approveHospital db actor hid message now).2
          = ApiResult.ok { h with
              status := HospitalStatus.approved
              approvedBy := some actor._id
              approvedAt := some now })
      ∧ ({ u with
            approvalStatus := ApprovalStatus.approved
            approvedBy := some actor._id
            approvedAt := some now }
          ∈ (approveHospital db actor hid message now).1.users)
      ∧ ({ h with
            status := HospitalStatus.approved
            approvedBy := some actor._id
            approvedAt := some now }
          ∈ (approveHospital db actor hid message now).1.hospitals))
    ∧ (pendingHospitalUser db h = none →
      ((approveHospital db actor hid message now).2
          = ApiResult.ok { h with
              status := HospitalStatus.approved
              approvedBy := some actor._id
              approvedAt := some now })
      ∧ ((approveHospital db actor hid message now).1.users = db.users)
      ∧ ({ h with
            status := HospitalStatus.approved
            approvedBy := some actor._id
            approvedAt := some now }
          ∈ (approveHospital db actor hid message now).1.hospitals)) := by
  have hmemh : h ∈ db.hospitals := List.mem_of_find?_eq_some hfind
  constructor
  · intro u hu
    have hmemu : u ∈ db.users := List.mem_of_find?_eq_some hu
    refine ⟨?_, ?_, ?_⟩
    · simp [approveHospital, hfind, hpend, hu]
    · simp only [approveHospital, hfind, hpend, hu]
      simp only [saveHospital, saveUser]
      have := List.mem_map_of_mem
        (fun v => if v._id = u._id then
          { u with
            approvalStatus := ApprovalStatus.approved
            approvedBy := some actor._id
            approvedAt := some now } else v) hmemu
      simpa using this
    · simp only [approveHospital, hfind, hpend, hu]
      simp only [saveHospital, saveUser]
      have := List.mem_map_of_mem
        (fun v => if v._id = h._id then
          { h with
            status := HospitalStatus.approved
            approvedBy := some actor._id
            approvedAt := some now } else v) hmemh
      simpa using this
  · intro hu
    refine ⟨?_, ?_, ?_⟩
    · simp [approveHospital, hfind, hpend, hu]
    · simp [approveHospital, hfind, hpend, hu, saveHospital]
    · simp only [approveHospital, hfind, hpend, hu]
      simp only [saveHospital]
      have := List.mem_map_of_mem
        (fun v => if v._id = h._id then
          { h with
            status := HospitalStatus.approved
            approvedBy := some actor._id
            approvedAt := some now } else v) hmemh
      simpa using this

/-- A pending hospital whose email matches a pending hospital-admin account. -/
def exHospP : Hospital :=
  { _id := 6, email := "c@hospital.example", status := HospitalStatus.pending }

/-- The pending hospital-admin account matching `exHospP`'s email. -/
def exHospUser : User :=
  { _id := 95, email := "c@hospital.example", role := Role.hospital,
    approvalStatus := ApprovalStatus.pending }

/-- Store used by the hospital-approval claim. -/
def exDB_E : DB :=
  { users := [exSuperAdmin, exHospUser], hospitals := [exHospP] }

/-- Witness for claim C8 at the concrete store: super admin approves the
pending hospital whose admin account is pending. -/
theorem c8_approve_hospital_cascade_witness :
    (∀ u, pendingHospitalUser exDB_E exHospP = some u →
      ((approveHospital exDB_E exSuperAdmin 6 none 4000).2
          = ApiResult.ok { exHospP with
              status := HospitalStatus.approved
              approvedBy := some exSuperAdmin._id
              approvedAt := some 4000 })
      ∧ ({ u with
            approvalStatus := ApprovalStatus.approved
            approvedBy := some exSuperAdmin._id
            approvedAt := some 4000 }
          ∈ (approveHospital exDB_E exSuperAdmin 6 none 4000).1.users)
      ∧ ({ exHospP with
            status := HospitalStatus.approved
            approvedBy := some exSuperAdmin._id
            approvedAt := some 4000 }
          ∈ (approveHospital exDB_E exSuperAdmin 6 none 4000).1.hospitals))
    ∧ (pendingHospitalUser exDB_E exHospP = none →
      ((approveHospital exDB_E exSuperAdmin 6 none 4000).2
          = ApiResult.ok { exHospP with
              status := HospitalStatus.approved
              approvedBy := some exSuperAdmin._id
              approvedAt := some 4000 })
      ∧ ((approveHospital exDB_E exSuperAdmin 6 none 4000).1.users
          = exDB_E.users)
      ∧ ({ exHospP with
            status := HospitalStatus.approved
            approvedBy := some exSuperAdmin._id
            approvedAt := some 4000 }
          ∈ (approveHospital exDB_E exSuperAdmin 6 none 4000).1.hospitals)) :=
  c8_approve_hospital_cascade exDB_E exSuperAdmin 6 none 4000 exHospP
    (by decide) (by decide)

/-- Model of `rejectUser` (POST /api/approval/reject-user/:userId).  The
route declares the validator chain
`body('reason').notEmpty().isString().trim().isLength({min: 10, max: 500})`
but wires no `validationResult` handler, so the chain records errors that
nothing ever reads; the only reason check that runs is the controller's
`if (!reason)`.  `user.reject` sets the rejected status, the reason, and
the rejector under `approvedBy`/`approvedAt`; the mongoose maxlength
validator on `rejectionReason` (500) runs at save. -/
def rejectUser (db : DB) (actor : User) (userId : Nat)
    (reason : Option String) (now : Nat) : DB × ApiResult User :=
  if (reason.getD "") = "" then
    (db, ApiResult.err 400 "Rejection reason is required")
  else
    match findUserById db userId with
    | none => (db, ApiResult.err 404 "User not found")
    | some user =>
      if user.approvalStatus ≠ ApprovalStatus.pending then
        (db, ApiResult.err 400 "User is not pending approval")
      else
        let user2 := { user with
          approvalStatus := ApprovalStatus.rejected
          rejectionReason := some (reason.getD "")
          approvedBy := some actor._id
          approvedAt := some now }
        if (reason.getD "").length ≤ 500 then
          (saveUser db user2, ApiResult.ok user2)
        else (db, ApiResult.err 500 "Error rejecting user")

/-- Model of `rejectHospital` (POST /api/approval/reject-hospital/:id).
The same declared-but-unwired validator chain as `rejectUser`; the only
running reason check is the controller's `if (!reason)`. -/
def rejectHospital (db : DB) (actor : User) (hospitalId : Nat)
    (reason : Option String) (now : Nat) : DB × ApiResult Hospital :=
  if (reason.getD "") = "" then
    (db, ApiResult.err 400 "Rejection reason is required")
  else
    match findHospitalById db hospitalId with
    | none => (db, ApiResult.err 404 "Hospital not found")
    | some hospital =>
      if hospital.status ≠ HospitalStatus.pending then
        (db, ApiResult.err 400 "Hospital is not pending approval")
      else
        let hospital2 := { hospital with
          status := HospitalStatus.rejected
          rejectionReason := some (reason.getD "")
          approvedBy := some actor._id
          approvedAt := some now }
        if (reason.getD "").length ≤ 500 then
          (saveHospital db hospital2, ApiResult.ok hospital2)
        else (db, ApiResult.err 500 "Error rejecting hospital")

/-- A pending doctor account awaiting rejection. -/
def exPendingUser : User :=
  { _id := 96, email := "d@doctor.example", role := Role.doctor,
    hospitalId := some 4, approvalStatus := ApprovalStatus.pending }

/-- Store used by the rejection claim. -/
def exDB_F : DB :=
  { users := [exSuperAdmin, exPendingUser], hospitals := [exHospP] }

/-- Claim C9 — the minimum length is not enforced.  An absent reason is
rejected with 400 and nothing changes, but the five-character reason
`short` is accepted by both rejection operations: the user ends rejected
and the hospital ends rejected, each recording the short reason. -/
theorem c9_short_rejection_reason_accepted_eval :
    (rejectUser exDB_F exSuperAdmin 96 none 5000
        = (exDB_F, ApiResult.err 400 "Rejection reason is required"))
    ∧ (rejectHospital exDB_F exSuperAdmin 6 none 5000
        = (exDB_F, ApiResult.err 400 "Rejection reason is required"))
    ∧ ("short".length < 10)
    ∧ ((rejectUser exDB_F exSuperAdmin 96 (some "short") 5000).2
        = ApiResult.ok { exPendingUser with
            approvalStatus := ApprovalStatus.rejected
            rejectionReason := some "short"
            approvedBy := some 9
            approvedAt := some 5000 })
    ∧ ((findUserById (rejectUser exDB_F exSuperAdmin 96
          (some "short") 5000).1 96).map User.approvalStatus
        = some ApprovalStatus.rejected)
    ∧ ((rejectHospital exDB_F exSuperAdmin 6 (some "short") 5000).2
        = ApiResult.ok { exHospP with
            status := HospitalStatus.rejected
            rejectionReason := some "short"
            approvedBy := some 9
            approvedAt := some 5000 })
    ∧ ((findHospitalById (rejectHospital exDB_F exSuperAdmin 6
          (some "short") 5000).1 6).map Hospital.status
        = some HospitalStatus.rejected) := by
  decide

/-- Request body of PUT /api/referrals/:id.  The handler accepts both the
`...Id`-suffixed and plain field names; for the doctor fields the outer
`Option` is key presence and the inner `Option` the `value || null`
coercion.  `diagnosis` is modelled in its string form. -/
structure UpdateReferralBody where
  reason : Option String := none
  priority : Option String := none
  specialty : Option String := none
  chiefComplaint : Option String := none
  historyOfPresentIllness : Option String := none
  physicalExamination : Option String := none
  vitalSigns : Option VitalSigns := none
  treatmentPlan : Option String := none
  notes : Option String := none
  receivingHospitalId : Option Nat := none
  receivingHospital : Option Nat := none
  receivingDoctorId : Option (Option Nat) := none
  receivingDoctor : Option (Option Nat) := none
  diagnosis : Option String := none
deriving DecidableEq, Repr

/-- Tail of `updateReferral` after the receiving-doctor validation: the
allowed-fields loop (the body's `treatmentPlan` and `notes` keys are not
schema paths and are dropped), the clear-receiving-doctor-on-hospital-change
rule, the diagnosis conversion, then `save()`. -/
def updateReferralFinish (db : DB) (referral : Referral)
    (u : UpdateReferralBody) (newReceivingHospital : Nat)
    (newReceivingDoctor : Option Nat) : DB × ApiResult Referral :=
  let r1 := { referral with
    receivingHospital := newReceivingHospital
    receivingDoctor := newReceivingDoctor
    reason := u.reason.getD referral.reason
    priority := u.priority.getD referral.priority
    specialty := u.specialty.getD referral.specialty
    chiefComplaint := u.chiefComplaint.getD referral.chiefComplaint
    historyOfPresentIllness :=
      u.historyOfPresentIllness.getD referral.historyOfPresentIllness
    physicalExamination :=
      u.physicalExamination.getD referral.physicalExamination
    vitalSigns := u.vitalSigns.getD referral.vitalSigns }
  let r2 :=
    if u.receivingHospitalId ≠ none ∨ u.receivingHospital ≠ none then
      match r1.receivingDoctor with
      | some dId =>
        match findUserById db dId with
        | some rd =>
          match rd.hospitalId with
          | some dh =>
            if dh ≠ r1.receivingHospital then
              { r1 with receivingDoctor := none }
            else r1
          | none => r1
        | none => r1
      | none => r1
    else r1
  let r3 :=
    match u.diagnosis with
    | some dg =>
      { r2 with diagnosis :=
          if dg = "" then {} else { primary := dg, secondary := [] } }
    | none => r2
  if referralValid r3 then (saveReferral db r3, ApiResult.ok r3)
  else (db, ApiResult.err 500 "Error updating referral")

/-- Body of `updateReferral` after the permission check: resolve the final
receiving hospital and doctor, then — when both are set — require the
receiving doctor to exist, to have role doctor, and (when the doctor has a
`hospitalId`) to belong to the receiving hospital; clinic doctors (no
`hospitalId`) pass.  A violation is a 400 before anything is saved. -/
def updateReferralApply (db : DB) (referral : Referral)
    (u : UpdateReferralBody) : DB × ApiResult Referral :=
  let newReceivingHospital : Nat :=
    match u.receivingHospitalId with
    | some h => h
    | none =>
      match u.receivingHospital with
      | some h => h
      | none => referral.receivingHospital
  let newReceivingDoctor : Option Nat :=
    match u.receivingDoctorId with
    | some v => v
    | none =>
      match u.receivingDoctor with
      | some v => v
      | none => referral.receivingDoctor
  match newReceivingDoctor with
  | some ndid =>
    match findUserById db ndid with
    | none => (db, ApiResult.err 400 "Invalid receiving doctor ID")
    | some receivingDoctor =>
      if receivingDoctor.role ≠ Role.doctor then
        (db, ApiResult.err 400 "Invalid receiving doctor ID")
      else
        match receivingDoctor.hospitalId with
        | some dh =>
          if dh ≠ newReceivingHospital then
            (db, ApiResult.err 400 "Receiving doctor must belong to the receiving hospital")
          else
            updateReferralFinish db referral u newReceivingHospital
              newReceivingDoctor
        | none =>
          updateReferralFinish db referral u newReceivingHospital
            newReceivingDoctor
  | none =>
    updateReferralFinish db referral u newReceivingHospital newReceivingDoctor

/-- Model of `updateReferral` (PUT /api/referrals/:id): for hospital-role
callers the referral must involve the caller's hospital, then the update is
applied. -/
def updateReferral (db : DB) (user : User) (id : Nat)
    (u : UpdateReferralBody) : DB × ApiResult Referral :=
  match findReferralById db id with
  | none => (db, ApiResult.err 404 "Referral not found")
  | some referral =>
    if user.role = Role.hospital ∧ user.hospitalId.isSome then
      if user.hospitalId ≠ some referral.referringHospital
          ∧ user.hospitalId ≠ some referral.receivingHospital then
        (db, ApiResult.err 403 "Access denied")
      else updateReferralApply db referral u
    else updateReferralApply db referral u

/-- Claim C10: setting a referral's receiving doctor to a doctor whose
`hospitalId` differs from the referral's receiving hospital fails with the
belongs-to-receiving-hospital 400, and the store is unchanged, for every
authorized caller, referral and such doctor. -/
theorem c10_receiving_doctor_must_belong (db : DB) (user : User)
    (rid x dh : Nat) (r : Referral) (d : User) (u : UpdateReferralBody)
    (hr : findReferralById db rid = some r)
    (hauth : user.role ≠ Role.hospital ∨ user.hospitalId = none
      ∨ user.hospitalId = some r.referringHospital
      ∨ user.hospitalId = some r.receivingHospital)
    (hb1 : u.receivingDoctorId = some (some x))
    (hb2 : u.receivingHospitalId = none)
    (hb3 : u.receivingHospital = none)
    (hd : findUserById db x = some d)
    (hdr : d.role = Role.doctor)
    (hdh : d.hospitalId = some dh)
    (hne : dh ≠ r.receivingHospital) :
    updateReferral db user rid u
      = (db, ApiResult.err 400 "Receiving doctor must belong to the receiving hospital") := by
  have happly : updateReferralApply db r u
      = (db, ApiResult.err 400 "Receiving doctor must belong to the receiving hospital") := by
    simp [updateReferralApply, hb1, hb2, hb3, hd, hdr, hdh, hne]
  rcases hauth with hnr | hnil | href | hrecv
  · simp [updateReferral, hr, hnr, happly]
  · simp [updateReferral, hr, hnil, happly]
  · simp [updateReferral, hr, href, happly]
  · simp [updateReferral, hr, hrecv, happly]

/-- Doctor of hospital 7, an invalid receiving doctor for a referral whose
receiving hospital is hospital 5. -/
def exDocH7 : User :=
  { _id := 97, role := Role.doctor, hospitalId := some 7,
    approvalStatus := ApprovalStatus.approved }

/-- Store used by the receiving-doctor-validation claim: the admin of the
referring hospital 4 updates the referral received by hospital 5. -/
def exDB_G : DB :=
  { users := [exAdminH4, exDocH7], referrals := [exReferralA] }

/-- Witness for claim C10 at the concrete store: the referring hospital's
admin sets the receiving doctor to a doctor of hospital 7 on a referral
received by hospital 5. -/
theorem c10_receiving_doctor_must_belong_witness :
    updateReferral exDB_G exAdminH4 100 { receivingDoctorId := some (some 97) }
      = (exDB_G, ApiResult.err 400 "Receiving doctor must belong to the receiving hospital") :=
  c10_receiving_doctor_must_belong exDB_G exAdminH4 100 97 7 exReferralA
    exDocH7 { receivingDoctorId := some (some 97) } (by decide)
    (Or.inr (Or.inr (Or.inl (by decide)))) rfl rfl rfl (by decide)
    (by decide) (by decide) (by decide)

end PRS
